import Mathlib

/-!
Shallow embedding of the user-CRUD HTTP service in `src/main.go`:
the MongoDB `users` collection, the startup schema-evolution steps
(`createUsersCollection`, `addAgeField`, the example-user insert in `main`)
and the five CRUD handlers (`createUser`, `getUserByID`, `updateUser`,
`deleteUser`, `getAllUsers`).

Modelling conventions:
- `time.Time` instants are natural numbers; each handler invocation receives
  the instant `now` at which its `time.Now()` calls happen.
- A MongoDB `ObjectID` is a natural number; the zero value of the Go type
  (`primitive.NilObjectID`, hex `000000000000000000000000`) is `0`.
  The store generates identifiers from a counter `nextId`, kept `≥ 1`, so a
  store-generated identifier is never `0`.
- A stored BSON document is a `UserDoc`; the field `age` is an `Option Int`
  because the Go struct tag is `bson:"age,omitempty"`: marshalling a `User`
  whose `Age` is the zero value `0` omits the field entirely.
- Transport-level failures of a driver call are injected through a `fail`
  flag on each operation; per the documented mongo-driver behaviour,
  `UpdateOne` and `DeleteOne` do NOT return an error when the filter matches
  zero documents (they report `MatchedCount`/`DeletedCount` of `0`).
- Fallible driver calls return `Except StoreErr`.
-/

namespace AdvProg2

/-- In-memory Go `User` struct (`src/main.go` lines 34-42).  `id = 0` is the
zero `primitive.ObjectID`. -/
structure User where
  id : Nat
  name : String
  email : String
  age : Int
  createdAt : Nat
  updatedAt : Nat
  version : Int
deriving DecidableEq

/-- The zero value of the Go `User` struct (`var user User`). -/
def User.zero : User :=
  { id := 0, name := "", email := "", age := 0, createdAt := 0, updatedAt := 0, version := 0 }

/-- A stored BSON document of the `users` collection, as produced by
marshalling `User` with its bson tags.  `age` is optional because of
`bson:"age,omitempty"`. -/
structure UserDoc where
  id : Nat
  name : String
  email : String
  age : Option Int
  created_at : Nat
  updated_at : Nat
  version : Int
deriving DecidableEq

/-- BSON-marshal a `User` under a store identifier `oid`.
`age,omitempty` drops the field when `Age` is the zero value `0`. -/
def User.toDoc (u : User) (oid : Nat) : UserDoc :=
  { id := oid, name := u.name, email := u.email,
    age := if u.age = 0 then none else some u.age,
    created_at := u.createdAt, updated_at := u.updatedAt, version := u.version }

/-- BSON-unmarshal a stored document into the Go `User` struct: a missing
`age` field leaves the zero value `0`. -/
def docToUser (d : UserDoc) : User :=
  { id := d.id, name := d.name, email := d.email, age := d.age.getD 0,
    createdAt := d.created_at, updatedAt := d.updated_at, version := d.version }

/-- The `users` collection: its documents in natural iteration order plus the
store's identifier counter (store-generated identifiers are `nextId, nextId+1, …`). -/
structure Collection where
  docs : List UserDoc
  nextId : Nat
deriving DecidableEq

/-- An empty collection, counter at `1` (store identifiers are never the zero value). -/
def emptyColl : Collection := { docs := [], nextId := 1 }

/-- Well-formedness: the counter is positive and above every stored identifier,
so a freshly generated identifier collides with nothing and is never `0`. -/
def Collection.WF (c : Collection) : Prop :=
  0 < c.nextId ∧ ∀ d ∈ c.docs, d.id < c.nextId

/-- Driver-call failures: a transport-level error, or a duplicate-key
rejection on insert. -/
inductive StoreErr where
  | transport
  | duplicateKey
deriving DecidableEq

/-- Hex digit value used by `primitive.ObjectIDFromHex`: exactly 24 hex digits, else an error
(modelled as `none`). -/
def hexDigitVal (ch : Char) : Option Nat :=
  if ch.isDigit then some (ch.toNat - 48)
  else if 'a' ≤ ch ∧ ch ≤ 'f' then some (ch.toNat - 87)
  else if 'A' ≤ ch ∧ ch ≤ 'F' then some (ch.toNat - 55)
  else none

/-- Parse a hex `ObjectID` string (`primitive.ObjectIDFromHex`). -/
def objectIDFromHex (s : String) : Option Nat :=
  if s.length = 24 then
    s.data.foldl (fun acc ch => acc.bind fun a => (hexDigitVal ch).map fun v => 16 * a + v)
      (some 0)
  else none

/-- The handlers write `objID, _ := primitive.ObjectIDFromHex(userID)`: a parse
failure is ignored and the zero-value `ObjectID` is used. -/
def parsedId (s : String) : Nat :=
  (objectIDFromHex s).getD 0

/-- Driver call `InsertOne`: with the zero-value `_id` (`omitempty`) the store generates a
fresh identifier from its counter; a caller-supplied nonzero `_id` is used as
is and rejected when it already exists.  Returns the inserted identifier. -/
def insertOne (fail : Bool) (u : User) (c : Collection) : Except StoreErr (Nat × Collection) :=
  if fail then .error .transport
  else if u.id = 0 then
    .ok (c.nextId, { docs := c.docs ++ [u.toDoc c.nextId], nextId := c.nextId + 1 })
  else if c.docs.any fun d => d.id == u.id then .error .duplicateKey
  else .ok (u.id, { docs := c.docs ++ [u.toDoc u.id], nextId := c.nextId })

/-- Driver call `FindOne` with filter `{_id: oid}`: the first document with that
identifier, in natural order. -/
def findOne (oid : Nat) (c : Collection) : Option UserDoc :=
  c.docs.find? fun d => d.id == oid

/-- The `$set {name, updated_at}` modification applied by `updateUser`'s
`UpdateOne` call: only `name` and `updated_at` are written. -/
def setNameUpdatedAt (nm : String) (now : Nat) (d : UserDoc) : UserDoc :=
  { d with name := nm, updated_at := now }

/-- Driver call `UpdateOne` with filter `{_id: oid}`: modifies the first matching document
only; returns `(MatchedCount, new list)`.  Matching zero documents is NOT an
error (the driver returns a `MatchedCount` of `0` and a nil error). -/
def updateOneList (oid : Nat) (nm : String) (now : Nat) : List UserDoc → Nat × List UserDoc
  | [] => (0, [])
  | d :: ds =>
    if d.id = oid then (1, setNameUpdatedAt nm now d :: ds)
    else
      let r := updateOneList oid nm now ds
      (r.1, d :: r.2)

/-- Driver call `DeleteOne` with filter `{_id: oid}`: removes the first matching document;
returns `(DeletedCount, new list)`.  Matching zero documents is NOT an error. -/
def deleteOneList (oid : Nat) : List UserDoc → Nat × List UserDoc
  | [] => (0, [])
  | d :: ds =>
    if d.id = oid then (1, ds)
    else
      let r := deleteOneList oid ds
      (r.1, d :: r.2)

/-- Index of the first document a filter `{_id: oid}` matches. -/
def findIdxOfId (oid : Nat) : List UserDoc → Option Nat
  | [] => none
  | d :: ds => if d.id = oid then some 0 else (findIdxOfId oid ds).map (· + 1)

/-- The sample user inserted by the seed step (`createUsersCollection`,
`src/main.go` lines 118-130): version 1, both timestamps now, no `Age` set. -/
def sampleUser (now : Nat) : User :=
  { id := 0, name := "John Doe", email := "john.doe@example.com", age := 0,
    createdAt := now, updatedAt := now, version := 1 }

/-- Seed step `createUsersCollection`: unconditionally `InsertOne` the sample
user. -/
def createUsersCollection (fail : Bool) (now : Nat) (c : Collection) :
    Except StoreErr Collection :=
  (insertOne fail (sampleUser now) c).map fun r => r.2

/-- Backfill step `addAgeField`: `UpdateMany` with the empty filter and
`$set {age: 0}` — every document's `age` becomes present and `0`. -/
def addAgeField (fail : Bool) (c : Collection) : Except StoreErr Collection :=
  if fail then .error .transport
  else .ok { c with docs := c.docs.map fun d => { d with age := some 0 } }

/-- The example user `main` inserts after the migrations (`src/main.go`
lines 187-203): like the sample user but `Version` is left at its zero value. -/
def exampleUser (now : Nat) : User :=
  { id := 0, name := "John Doe", email := "john.doe@example.com", age := 0,
    createdAt := now, updatedAt := now, version := 0 }

/-- The startup sequence of `main` on the success path: seed, backfill `age`,
then insert the example user (each aborting startup on error). -/
def startupSequence (now1 now2 : Nat) (c : Collection) : Except StoreErr Collection :=
  (createUsersCollection false now1 c).bind fun c1 =>
    (addAgeField false c1).bind fun c2 =>
      (insertOne false (exampleUser now2) c2).map fun r => r.2

/-- Handler `createUser`: `body` is the JSON decode outcome (`none` =
malformed → 400); on success `CreatedAt`/`UpdatedAt` are overwritten with now
and the document inserted (insert error → 500); 200 returns the insertion
acknowledgment (the inserted identifier). -/
def createUser (body : Option User) (now : Nat) (fail : Bool) (c : Collection) :
    Nat × Option Nat × Collection :=
  match body with
  | none => (400, none, c)
  | some u =>
    let u2 := { u with createdAt := now, updatedAt := now }
    match insertOne fail u2 c with
    | .error _ => (500, none, c)
    | .ok r => (200, some r.1, r.2)

/-- Core of `getUserByID` after identifier parsing: `FindOne` by `_id`; any
error (no match, or the lookup failing) → 404; success returns the decoded
document. -/
def getUserCore (oid : Nat) (fail : Bool) (c : Collection) : Nat × Option User :=
  if fail then (404, none)
  else
    match findOne oid c with
    | none => (404, none)
    | some d => (200, some (docToUser d))

/-- Handler `getUserByID`: parse the `id` query parameter (failure silently
yields the zero `ObjectID`), then look up. -/
def getUserByID (idStr : String) (fail : Bool) (c : Collection) : Nat × Option User :=
  getUserCore (parsedId idStr) fail c

/-- Handler `updateUser`: `body` is the decode outcome of the partial payload
(`none` = malformed → 400; `some nameOpt` decoded, with a missing `"name"`
key leaving the zero value `""`).  `UpdateOne` errors → 500, else 204. -/
def updateUser (idStr : String) (body : Option (Option String)) (now : Nat) (fail : Bool)
    (c : Collection) : Nat × Collection :=
  match body with
  | none => (400, c)
  | some nameOpt =>
    if fail then (500, c)
    else (204, { c with docs := (updateOneList (parsedId idStr) (nameOpt.getD "") now c.docs).2 })

/-- Handler `deleteUser`: `DeleteOne` by the parsed identifier; a driver error
→ 500, otherwise 204 whether or not anything was deleted. -/
def deleteUser (idStr : String) (fail : Bool) (c : Collection) : Nat × Collection :=
  if fail then (500, c)
  else (204, { c with docs := (deleteOneList (parsedId idStr) c.docs).2 })

/-- Outcome of `cursor.Decode(&user)` for one iterated document: either the
document decodes fully into `u`, or decoding fails partway.  `cursor.Decode`
populates struct fields element by element and returns on the first failing
element, so on failure the variable — zero-valued beforehand — is left as `v`,
populated up to the failing field (for a document like `{name: "Bob", age: "x"}`
that is `name` set, the rest still zero). -/
inductive DecodeRes where
  | ok (u : User)
  | failed (v : User)
deriving DecidableEq

/-- The user value held by the loop variable after `var user User` followed by
`cursor.Decode(&user)`. -/
def DecodeRes.val : DecodeRes → User
  | .ok u => u
  | .failed v => v

/-- The cursor loop of `getAllUsers`: the error returned by `cursor.Decode` is
ignored and the user variable is appended either way — on failure as the
decoder left it, not omitted. -/
def getAllUsersLoop : List DecodeRes → List User
  | [] => []
  | r :: rs => r.val :: getAllUsersLoop rs

/-- Handler `getAllUsers`: `findFail` is `Find` failing to open the cursor
(→ 500); otherwise the loop's result is returned with 200. -/
def getAllUsers (findFail : Bool) (raws : List DecodeRes) : Nat × Option (List User) :=
  if findFail then (500, none) else (200, some (getAllUsersLoop raws))

/-! ### Concrete collections used to instantiate theorems -/

def wDoc1 : UserDoc :=
  { id := 1, name := "Ann", email := "ann@x.com", age := some 3,
    created_at := 5, updated_at := 5, version := 0 }

def wDoc2 : UserDoc :=
  { id := 2, name := "Ben", email := "ben@x.com", age := none,
    created_at := 6, updated_at := 6, version := 0 }

def wColl1 : Collection := { docs := [wDoc1], nextId := 2 }

def wColl2 : Collection := { docs := [wDoc1, wDoc2], nextId := 3 }

/-- A creation payload with caller-supplied timestamps (99 and 98) that the
server must overwrite. -/
def wUser : User :=
  { id := 0, name := "Ann", email := "ann@x.com", age := 7,
    createdAt := 99, updatedAt := 98, version := 2 }

/-- The collection produced by `startupSequence 1 2 emptyColl`. -/
def wStartup : Collection :=
  { docs := [{ id := 1, name := "John Doe", email := "john.doe@example.com", age := some 0,
               created_at := 1, updated_at := 1, version := 1 },
             { id := 2, name := "John Doe", email := "john.doe@example.com", age := none,
               created_at := 2, updated_at := 2, version := 0 }],
    nextId := 3 }

/-- The 24-hex-digit spelling of `ObjectID` `1`. -/
def hexOne : String := "000000000000000000000001"

/-- An empty collection after one run of the seed step at time 1. -/
def wSeed1 : Collection :=
  { docs := [{ id := 1, name := "John Doe", email := "john.doe@example.com", age := none,
               created_at := 1, updated_at := 1, version := 1 }],
    nextId := 2 }

/-- State `wSeed1` after a second run of the seed step at time 2. -/
def wSeed2 : Collection :=
  { docs := [{ id := 1, name := "John Doe", email := "john.doe@example.com", age := none,
               created_at := 1, updated_at := 1, version := 1 },
             { id := 2, name := "John Doe", email := "john.doe@example.com", age := none,
               created_at := 2, updated_at := 2, version := 1 }],
    nextId := 3 }

/-! ### Helper lemmas about the store operations -/

theorem updateOneList_length (oid : Nat) (nm : String) (now : Nat) (l : List UserDoc) :
    ((updateOneList oid nm now l).2).length = l.length := by
  induction l with
  | nil => rfl
  | cons d ds ih => by_cases hd : d.id = oid <;> simp [updateOneList, hd, ih]

theorem map_succ_eq_some_succ (o : Option Nat) (j : Nat) :
    o.map (· + 1) = some (j + 1) ↔ o = some j := by
  cases o <;> simp

theorem map_succ_ne_some_zero (o : Option Nat) : ¬ o.map (· + 1) = some 0 := by
  cases o <;> simp

theorem updateOneList_getD (oid : Nat) (nm : String) (now : Nat) (l : List UserDoc)
    (i : Nat) (d0 : UserDoc) :
    ((updateOneList oid nm now l).2).getD i d0 =
      if findIdxOfId oid l = some i then setNameUpdatedAt nm now (l.getD i d0)
      else l.getD i d0 := by
  induction l generalizing i with
  | nil => simp [updateOneList, findIdxOfId]
  | cons d ds ih =>
    by_cases hd : d.id = oid
    · have hl : (updateOneList oid nm now (d :: ds)).2 = setNameUpdatedAt nm now d :: ds := by
        simp [updateOneList, hd]
      have hf : findIdxOfId oid (d :: ds) = some 0 := by simp [findIdxOfId, hd]
      cases i with
      | zero =>
        rw [hl, hf, if_pos rfl, List.getD_cons_zero, List.getD_cons_zero]
      | succ j =>
        rw [hl, hf, if_neg (by simp), List.getD_cons_succ, List.getD_cons_succ]
    · have hl : (updateOneList oid nm now (d :: ds)).2 = d :: (updateOneList oid nm now ds).2 := by
        simp [updateOneList, hd]
      have hf : findIdxOfId oid (d :: ds) = (findIdxOfId oid ds).map (· + 1) := by
        simp [findIdxOfId, hd]
      cases i with
      | zero =>
        rw [hl, hf, if_neg (map_succ_ne_some_zero _), List.getD_cons_zero, List.getD_cons_zero]
      | succ j =>
        rw [hl, List.getD_cons_succ, List.getD_cons_succ, ih, hf]
        by_cases hj : findIdxOfId oid ds = some j
        · rw [if_pos hj, if_pos ((map_succ_eq_some_succ _ _).mpr hj)]
        · rw [if_neg hj, if_neg fun hc => hj ((map_succ_eq_some_succ _ _).mp hc)]

theorem updateOneList_of_none (oid : Nat) (nm : String) (now : Nat) (l : List UserDoc)
    (h : l.find? (fun d => d.id == oid) = none) :
    updateOneList oid nm now l = (0, l) := by
  induction l with
  | nil => rfl
  | cons d ds ih =>
    by_cases hd : d.id = oid
    · rw [List.find?_cons_of_pos _ (by simp [hd])] at h
      exact Option.noConfusion h
    · rw [List.find?_cons_of_neg _ (by simp [hd])] at h
      simp [updateOneList, hd, ih h]

theorem deleteOneList_of_none (oid : Nat) (l : List UserDoc)
    (h : l.find? (fun d => d.id == oid) = none) :
    deleteOneList oid l = (0, l) := by
  induction l with
  | nil => rfl
  | cons d ds ih =>
    by_cases hd : d.id = oid
    · rw [List.find?_cons_of_pos _ (by simp [hd])] at h
      exact Option.noConfusion h
    · rw [List.find?_cons_of_neg _ (by simp [hd])] at h
      simp [deleteOneList, hd, ih h]

theorem find?_id_append {p : UserDoc → Bool} {l1 l2 : List UserDoc}
    (h : ∀ d ∈ l1, p d = false) :
    (l1 ++ l2).find? p = l2.find? p := by
  induction l1 with
  | nil => rfl
  | cons d ds ih =>
    rw [List.cons_append, List.find?_cons_of_neg _ (by simp [h d (by simp)])]
    exact ih fun x hx => h x (by simp [hx])

theorem findIdxOfId_lt_length (oid : Nat) (l : List UserDoc) (i : Nat)
    (h : findIdxOfId oid l = some i) : i < l.length := by
  induction l generalizing i with
  | nil => exact Option.noConfusion h
  | cons d ds ih =>
    rw [List.length_cons]
    by_cases hd : d.id = oid
    · have h0 : (some 0 : Option Nat) = some i := by
        rw [← h]; simp [findIdxOfId, hd]
      have : i = 0 := (Option.some.inj h0).symm
      omega
    · have hf : (findIdxOfId oid ds).map (· + 1) = some i := by
        rw [← h]; simp [findIdxOfId, hd]
      cases hx : findIdxOfId oid ds with
      | none => rw [hx] at hf; exact Option.noConfusion hf
      | some k =>
        rw [hx] at hf
        have hik : k + 1 = i := Option.some.inj hf
        have := ih k hx
        omega

theorem getAllUsersLoop_length (rs : List DecodeRes) :
    (getAllUsersLoop rs).length = rs.length := by
  induction rs with
  | nil => rfl
  | cons r rs ih => simp [getAllUsersLoop, ih]

theorem getAllUsersLoop_getD (rs : List DecodeRes) (i : Nat) :
    (getAllUsersLoop rs).getD i User.zero = (rs.getD i (.ok User.zero)).val := by
  induction rs generalizing i with
  | nil => simp [getAllUsersLoop, DecodeRes.val]
  | cons r rs ih =>
    cases i with
    | zero =>
      show (r.val :: getAllUsersLoop rs).getD 0 User.zero = _
      rw [List.getD_cons_zero, List.getD_cons_zero]
    | succ j =>
      show (r.val :: getAllUsersLoop rs).getD (j + 1) User.zero = _
      rw [List.getD_cons_succ, List.getD_cons_succ, ih]

theorem createUsersCollection_eq (now : Nat) (c : Collection) :
    createUsersCollection false now c =
      Except.ok { docs := c.docs ++ [(sampleUser now).toDoc c.nextId],
                  nextId := c.nextId + 1 } := rfl

theorem addAgeField_eq (c : Collection) :
    addAgeField false c =
      Except.ok { c with docs := c.docs.map fun d => { d with age := some 0 } } := rfl

theorem startupSequence_eq (now1 now2 : Nat) (c : Collection) :
    startupSequence now1 now2 c =
      Except.ok
        { docs :=
            ((c.docs ++ [(sampleUser now1).toDoc c.nextId]).map
              fun d => { d with age := some 0 }) ++ [(exampleUser now2).toDoc (c.nextId + 1)],
          nextId := c.nextId + 2 } := rfl

/-- Documents matching the shape of the seed step's sample user. -/
def isSampleDoc (d : UserDoc) : Bool :=
  d.name == "John Doe" && d.email == "john.doe@example.com" && d.version == 1

/-! ### The claims -/

/-- C1 counterexample: on an empty collection — so the identifier matches no
document — and with the store-level call not erring, `updateUser` responds 204
(success), not 500: the mongo-driver's `UpdateOne` reports zero matched
documents with a nil error, so the handler never sees an error to map to 500. -/
theorem updateUser_nomatch_ce :
    findOne (parsedId hexOne) emptyColl = none ∧
    (updateUser hexOne (some (some "Bob")) 7 false emptyColl).1 = 204 ∧
    ¬ (updateUser hexOne (some (some "Bob")) 7 false emptyColl).1 = 500 := by
  exact ⟨rfl, rfl, by decide⟩

/-- C1 (amended): an update whose identifier matches no document is reported as
success 204 with the collection unchanged — indistinguishable from a successful
update — and responds 500 exactly when the store-level update call itself
errors. -/
theorem updateUser_nomatch (idStr : String) (nameOpt : Option String) (now : Nat)
    (c : Collection) (h : findOne (parsedId idStr) c = none) :
    (updateUser idStr (some nameOpt) now false c).1 = 204 ∧
    (updateUser idStr (some nameOpt) now false c).2 = c ∧
    (updateUser idStr (some nameOpt) now true c).1 = 500 := by
  refine ⟨rfl, ?_, rfl⟩
  show ({ c with docs := (updateOneList (parsedId idStr) (nameOpt.getD "") now c.docs).2 } :
      Collection) = c
  rw [updateOneList_of_none _ _ _ _ h]

/-- Witness for the amended C1 at a concrete no-match input. -/
theorem updateUser_nomatch_witness :
    (updateUser hexOne (some (some "Ann")) 7 false emptyColl).1 = 204 ∧
    (updateUser hexOne (some (some "Ann")) 7 false emptyColl).2 = emptyColl ∧
    (updateUser hexOne (some (some "Ann")) 7 true emptyColl).1 = 500 :=
  updateUser_nomatch hexOne (some "Ann") 7 emptyColl rfl

/-- C2 counterexample: a document such as `{name: "Bob", age: "x"}` decodes
`name` before failing on `age`; the loop ignores the decode error and appends
the partially decoded user (name "Bob", every other field still zero) anyway —
the document is not omitted, and the result is not the (empty) list of
successfully decoded documents. -/
theorem getAllUsers_ce :
    (getAllUsers false [DecodeRes.failed { User.zero with name := "Bob" }]).1 = 200 ∧
    (getAllUsers false [DecodeRes.failed { User.zero with name := "Bob" }]).2 =
      some [{ User.zero with name := "Bob" }] ∧
    ¬ (getAllUsers false [DecodeRes.failed { User.zero with name := "Bob" }]).2 =
      some ([] : List User) := by
  exact ⟨rfl, rfl, by decide⟩

/-- C2 (amended): when an individual document fails to decode during list-all
iteration, the decode error is ignored and the user variable is appended as the
decoder left it — possibly partially populated, with the not-yet-decoded fields
still at their zero values; no error is surfaced (200), and the result has
exactly one entry per iterated document, decoded documents appearing as
themselves. -/
theorem getAllUsers_keeps_failed (raws : List DecodeRes) :
    (getAllUsers false raws).1 = 200 ∧
    ((getAllUsers false raws).2.getD []).length = raws.length ∧
    ∀ i : Nat, ((getAllUsers false raws).2.getD []).getD i User.zero =
      (raws.getD i (.ok User.zero)).val := by
  refine ⟨rfl, ?_, ?_⟩
  · show (getAllUsersLoop raws).length = raws.length
    exact getAllUsersLoop_length raws
  · intro i
    show (getAllUsersLoop raws).getD i User.zero = _
    exact getAllUsersLoop_getD raws i

/-- C7: a delete matching zero documents is still reported as success 204 and
leaves the collection unchanged; `deleteUser` responds 500 exactly when the
store-level delete call itself errors. -/
theorem deleteUser_status (idStr : String) (fail : Bool) (c : Collection) :
    (deleteUser idStr fail c).1 = (if fail then 500 else 204) ∧
    ((deleteUser idStr fail c).1 = 500 ↔ fail = true) ∧
    (findOne (parsedId idStr) c = none → fail = false →
      (deleteUser idStr fail c).2 = c) := by
  cases fail
  · refine ⟨rfl, by simp [deleteUser], ?_⟩
    intro h _
    show ({ c with docs := (deleteOneList (parsedId idStr) c.docs).2 } : Collection) = c
    rw [deleteOneList_of_none _ _ h]
  · exact ⟨rfl, by simp [deleteUser], fun _ hft => Bool.noConfusion hft⟩

/-- Witness for C7 at a concrete no-match input. -/
theorem deleteUser_status_witness :
    (deleteUser hexOne false emptyColl).2 = emptyColl :=
  (deleteUser_status hexOne false emptyColl).2.2 rfl rfl

/-- C9: the startup seed step unconditionally inserts one sample user document
with version 1 and both timestamps set to now, and is not idempotent: run again
from the resulting state it inserts a second, duplicate sample document. -/
theorem createUsersCollection_seed (now now2 : Nat) (c : Collection) :
    (∃ d, createUsersCollection false now c =
        Except.ok { docs := c.docs ++ [d], nextId := c.nextId + 1 } ∧
      isSampleDoc d = true ∧ d.created_at = now ∧ d.updated_at = now) ∧
    ∀ c1 c2, createUsersCollection false now c = Except.ok c1 →
      createUsersCollection false now2 c1 = Except.ok c2 →
      c2.docs.length = c.docs.length + 2 ∧
      (c2.docs.filter isSampleDoc).length = (c.docs.filter isSampleDoc).length + 2 := by
  have hs : ∀ (n oid : Nat), isSampleDoc ((sampleUser n).toDoc oid) = true := by
    intro n oid
    simp [isSampleDoc, sampleUser, User.toDoc]
  constructor
  · exact ⟨(sampleUser now).toDoc c.nextId, createUsersCollection_eq now c,
      hs now c.nextId, rfl, rfl⟩
  · intro c1 c2 h1 h2
    rw [createUsersCollection_eq] at h1
    have e1 : c1 = _ := (Except.ok.inj h1).symm
    subst e1
    rw [createUsersCollection_eq] at h2
    have e2 : c2 = _ := (Except.ok.inj h2).symm
    subst e2
    constructor
    · simp
    · simp [List.filter_append, hs]

/-- Witness for C9: re-running the seed step from a seeded state duplicates the
sample document. -/
theorem createUsersCollection_seed_witness :
    wSeed2.docs.length = emptyColl.docs.length + 2 ∧
    (wSeed2.docs.filter isSampleDoc).length = (emptyColl.docs.filter isSampleDoc).length + 2 :=
  (createUsersCollection_seed 1 2 emptyColl).2 wSeed1 wSeed2 rfl rfl

/-- C10: a well-formed update body that omits the "name" key (such as `{}`)
decodes to the zero value and is not rejected: the request proceeds with 204
and sets the matched document's name to `""` while refreshing updated_at. -/
theorem updateUser_missing_name (idStr : String) (now : Nat) (c : Collection) (i : Nat)
    (d0 : UserDoc) (hmatch : findIdxOfId (parsedId idStr) c.docs = some i) :
    (updateUser idStr (some none) now false c).1 = 204 ∧
    ((updateUser idStr (some none) now false c).2.docs.getD i d0).name = "" ∧
    ((updateUser idStr (some none) now false c).2.docs.getD i d0).updated_at = now := by
  have hg := updateOneList_getD (parsedId idStr) "" now c.docs i d0
  rw [if_pos hmatch] at hg
  refine ⟨rfl, ?_, ?_⟩
  · show ((updateOneList (parsedId idStr) "" now c.docs).2.getD i d0).name = ""
    rw [hg]; rfl
  · show ((updateOneList (parsedId idStr) "" now c.docs).2.getD i d0).updated_at = now
    rw [hg]; rfl

/-- Witness for C10 on a one-document collection whose identifier is `1`. -/
theorem updateUser_missing_name_witness :
    (updateUser hexOne (some none) 9 false wColl1).1 = 204 ∧
    ((updateUser hexOne (some none) 9 false wColl1).2.docs.getD 0 wDoc1).name = "" ∧
    ((updateUser hexOne (some none) 9 false wColl1).2.docs.getD 0 wDoc1).updated_at = 9 :=
  updateUser_missing_name hexOne 9 wColl1 0 wDoc1 (by decide)

/-- C6: for every successful update with a matched document (at index `i`), the
handler responds 204, the collection's id counter and document count are
unchanged, the matched document becomes exactly its old value with only `name`
and `updated_at` rewritten (`setNameUpdatedAt` touches no other field — not
`email`, `age`, `version` or `created_at`), and every other document is left
unchanged. -/
theorem updateUser_frame (idStr : String) (nameOpt : Option String) (now : Nat)
    (c : Collection) (i : Nat) (d0 : UserDoc)
    (hmatch : findIdxOfId (parsedId idStr) c.docs = some i) :
    (updateUser idStr (some nameOpt) now false c).1 = 204 ∧
    (updateUser idStr (some nameOpt) now false c).2.nextId = c.nextId ∧
    (updateUser idStr (some nameOpt) now false c).2.docs.length = c.docs.length ∧
    (updateUser idStr (some nameOpt) now false c).2.docs.getD i d0 =
      setNameUpdatedAt (nameOpt.getD "") now (c.docs.getD i d0) ∧
    ∀ j : Nat, ¬ j = i →
      (updateUser idStr (some nameOpt) now false c).2.docs.getD j d0 =
        c.docs.getD j d0 := by
  refine ⟨rfl, rfl, ?_, ?_, ?_⟩
  · show ((updateOneList (parsedId idStr) (nameOpt.getD "") now c.docs).2).length = c.docs.length
    exact updateOneList_length _ _ _ _
  · have hg := updateOneList_getD (parsedId idStr) (nameOpt.getD "") now c.docs i d0
    rw [if_pos hmatch] at hg
    exact hg
  · intro j hj
    have hne : ¬ findIdxOfId (parsedId idStr) c.docs = some j := by
      rw [hmatch]
      exact fun hc => hj (Option.some.inj hc).symm
    have hg := updateOneList_getD (parsedId idStr) (nameOpt.getD "") now c.docs j d0
    rw [if_neg hne] at hg
    exact hg

/-- Witness for C6 on a two-document collection: the matched document is
rewritten, the other one untouched. -/
theorem updateUser_frame_witness :
    (updateUser hexOne (some (some "Anne")) 9 false wColl2).1 = 204 ∧
    (updateUser hexOne (some (some "Anne")) 9 false wColl2).2.docs.getD 1 wDoc1 =
      wColl2.docs.getD 1 wDoc1 :=
  ⟨(updateUser_frame hexOne (some "Anne") 9 wColl2 0 wDoc1 (by decide)).1,
   (updateUser_frame hexOne (some "Anne") 9 wColl2 0 wDoc1 (by decide)).2.2.2.2 1 (by decide)⟩

/-- C5: an identifier that fails to parse is silently replaced by the zero-value
id and the lookup proceeds; `getUserByID` responds 404 exactly when the lookup
itself errors or no document matches — both collapse into the same 404 — and on
success it returns the full decoded document with 200. -/
theorem getUserByID_spec (idStr : String) (fail : Bool) (c : Collection) :
    (objectIDFromHex idStr = none → getUserByID idStr fail c = getUserCore 0 fail c) ∧
    ((getUserByID idStr fail c).1 = 404 ↔
      (fail = true ∨ findOne (parsedId idStr) c = none)) ∧
    (∀ d, fail = false → findOne (parsedId idStr) c = some d →
      getUserByID idStr fail c = (200, some (docToUser d))) := by
  refine ⟨?_, ?_, ?_⟩
  · intro h
    unfold getUserByID parsedId
    rw [h]
    rfl
  · unfold getUserByID getUserCore
    cases fail
    · cases hf : findOne (parsedId idStr) c <;> simp [hf]
    · simp
  · intro d hf hfind
    subst hf
    unfold getUserByID getUserCore
    simp [hfind]

/-- Witness for C5: an unparsable identifier proceeds as the zero id; a present
identifier returns the document with 200. -/
theorem getUserByID_spec_witness :
    getUserByID "zz" false wColl1 = getUserCore 0 false wColl1 ∧
    getUserByID hexOne false wColl1 = (200, some (docToUser wDoc1)) :=
  ⟨(getUserByID_spec "zz" false wColl1).1 (by decide),
   (getUserByID_spec hexOne false wColl1).2.2 wDoc1 rfl (by decide)⟩

theorem insertOne_ok_docs (fail : Bool) (u : User) (c : Collection) (r : Nat × Collection)
    (h : insertOne fail u c = Except.ok r) :
    r.2.docs = c.docs ++ [u.toDoc r.1] := by
  unfold insertOne at h
  split at h
  · exact Except.noConfusion h
  · split at h
    · injection h with h2
      subst h2
      rfl
    · split at h
      · exact Except.noConfusion h
      · injection h with h2
        subst h2
        rfl

/-- C4: every well-formed create request that succeeds stores a document whose
created_at and updated_at are both overwritten by the server to the handling
time `now` — regardless of any caller-supplied values — so the two are equal
and both at or after the request's receipt time. -/
theorem createUser_timestamps (u : User) (now recv : Nat) (fail : Bool) (c : Collection)
    (hrecv : recv ≤ now)
    (hok : (createUser (some u) now fail c).1 = 200) :
    ∃ d, ((createUser (some u) now fail c).2.2).docs = c.docs ++ [d] ∧
      d.created_at = now ∧ d.updated_at = now ∧ d.created_at = d.updated_at ∧
      recv ≤ d.created_at ∧ recv ≤ d.updated_at := by
  simp only [createUser] at hok ⊢
  cases hins : insertOne fail { u with createdAt := now, updatedAt := now } c with
  | error e =>
    rw [hins] at hok
    exact absurd (show (500 : Nat) = 200 from hok) (by decide)
  | ok r =>
    refine ⟨({ u with createdAt := now, updatedAt := now } : User).toDoc r.1,
      ?_, rfl, rfl, rfl, hrecv, hrecv⟩
    exact insertOne_ok_docs fail _ c r hins

/-- Witness for C4 with caller-supplied timestamps 99 and 98, receipt time 3
and handling time 5. -/
theorem createUser_timestamps_witness :
    ∃ d, ((createUser (some wUser) 5 false emptyColl).2.2).docs = emptyColl.docs ++ [d] ∧
      d.created_at = 5 ∧ d.updated_at = 5 ∧ d.created_at = d.updated_at ∧
      3 ≤ d.created_at ∧ 3 ≤ d.updated_at :=
  createUser_timestamps wUser 5 3 false emptyColl (by decide) (by decide)

/-- C8 round-trip: creating a user from a well-formed payload (zero-value id,
no store error) on a well-formed collection returns 200 with the assigned
identifier, and reading by that identifier returns a document whose name,
email, age and version match what was sent — only the identifier and the
timestamps are server-set. -/
theorem create_then_get_roundtrip (u : User) (now : Nat) (c : Collection) (idStr : String)
    (hwf : c.WF) (hid : u.id = 0) (hparse : objectIDFromHex idStr = some c.nextId) :
    (createUser (some u) now false c).1 = 200 ∧
    (createUser (some u) now false c).2.1 = some c.nextId ∧
    ∃ ru : User,
      getUserByID idStr false (createUser (some u) now false c).2.2 = (200, some ru) ∧
      ru.name = u.name ∧ ru.email = u.email ∧ ru.age = u.age ∧
      ru.version = u.version := by
  have hu2 : ({ u with createdAt := now, updatedAt := now } : User).id = 0 := hid
  have hins : insertOne false { u with createdAt := now, updatedAt := now } c =
      Except.ok (c.nextId,
        { docs := c.docs ++
            [({ u with createdAt := now, updatedAt := now } : User).toDoc c.nextId],
          nextId := c.nextId + 1 }) := by
    unfold insertOne
    rw [if_neg (by simp), if_pos hu2]
  have hc : createUser (some u) now false c =
      (200, some c.nextId,
        ({ docs := c.docs ++
             [({ u with createdAt := now, updatedAt := now } : User).toDoc c.nextId],
           nextId := c.nextId + 1 } : Collection)) := by
    simp only [createUser]
    rw [hins]
  have hp : parsedId idStr = c.nextId := by
    unfold parsedId
    rw [hparse]
    rfl
  have hnone : ∀ d ∈ c.docs, ((fun d => d.id == c.nextId) d) = false := by
    intro d hd
    have hlt := hwf.2 d hd
    simp [Nat.ne_of_lt hlt]
  have hfind : findOne c.nextId ((createUser (some u) now false c).2.2) =
      some (({ u with createdAt := now, updatedAt := now } : User).toDoc c.nextId) := by
    rw [hc]
    show (c.docs ++ [_]).find? _ = _
    rw [find?_id_append hnone, List.find?_cons_of_pos _ (by simp [User.toDoc])]
  refine ⟨by rw [hc], by rw [hc],
    docToUser (({ u with createdAt := now, updatedAt := now } : User).toDoc c.nextId),
    ?_, rfl, rfl, ?_, rfl⟩
  · show getUserCore (parsedId idStr) false ((createUser (some u) now false c).2.2) = _
    rw [hp]
    simp [getUserCore, hfind]
  · show (if u.age = 0 then none else some u.age).getD 0 = u.age
    by_cases ha : u.age = 0
    · rw [if_pos ha, ha]
      rfl
    · rw [if_neg ha]
      rfl

/-- Witness for C8: create on the empty collection, read back through the hex
spelling of the assigned identifier. -/
theorem create_then_get_roundtrip_witness :
    (createUser (some wUser) 5 false emptyColl).1 = 200 ∧
    (createUser (some wUser) 5 false emptyColl).2.1 = some emptyColl.nextId ∧
    ∃ ru : User,
      getUserByID hexOne false (createUser (some wUser) 5 false emptyColl).2.2 =
        (200, some ru) ∧
      ru.name = wUser.name ∧ ru.email = wUser.email ∧ ru.age = wUser.age ∧
      ru.version = wUser.version :=
  create_then_get_roundtrip wUser 5 emptyColl hexOne
    ⟨Nat.one_pos, fun d hd => absurd hd (List.not_mem_nil d)⟩ rfl (by decide)

/-- C3 counterexample: running the startup sequence on an empty collection, the
example document the sequence itself inserts after the backfill has no age
field — its zero `Age` is dropped by `omitempty` — though the backfill has run. -/
theorem startup_age_ce :
    ∃ c2, startupSequence 1 2 emptyColl = Except.ok c2 ∧
      ∃ d, d ∈ c2.docs ∧ d.age = none := by
  refine ⟨_, rfl, (exampleUser 2).toDoc 2, ?_, rfl⟩
  decide

/-- C3 (amended): right after the backfill step runs, every document then in
the collection has the age field present and equal to 0; but the example
document the startup sequence inserts after the backfill lacks the age field
entirely, because marshalling omits a zero age (`bson:"age,omitempty"`). -/
theorem backfill_age (c : Collection) :
    (∀ c1, addAgeField false c = Except.ok c1 → ∀ d ∈ c1.docs, d.age = some 0) ∧
    (∀ now1 now2 c2, startupSequence now1 now2 c = Except.ok c2 →
      c2.docs.getLast?.map (fun d => d.age) = some none) := by
  constructor
  · intro c1 h1 d hd
    rw [addAgeField_eq] at h1
    have e1 : c1 = _ := (Except.ok.inj h1).symm
    subst e1
    simp only [List.mem_map] at hd
    obtain ⟨d', _, rfl⟩ := hd
    rfl
  · intro now1 now2 c2 h2
    rw [startupSequence_eq] at h2
    have e2 : c2 = _ := (Except.ok.inj h2).symm
    subst e2
    rw [List.getLast?_concat]
    rfl

/-- Witness for the amended C3 on the empty collection. -/
theorem backfill_age_witness :
    wStartup.docs.getLast?.map (fun d => d.age) = some none :=
  (backfill_age emptyColl).2 1 2 wStartup rfl

end AdvProg2
